import Mathlib

/-!
Verification of the MCP tutorial repository's protocol core: the JSON-RPC
framing over a subprocess's standard streams, the HTTP adaptation of that
framing, the tool-call dispatcher's extraction policy, the Gemini schema
cleaner, and the LLM tool-use loop's rate-limit retry logic.

All definitions are shallow embeddings of the Python source under
`mcp-client/` and `mcp-server/`.
-/

/-! ## JSON value model

Python dicts/lists/scalars as parsed from JSON.  Objects and arrays are
modelled with mutually inductive spine types so that structural recursion
and induction stay simple. -/

mutual

inductive Json where
  | str  : String → Json
  | num  : Int → Json
  | bool : Bool → Json
  | null : Json
  | arr  : JArr → Json
  | obj  : JObj → Json
  deriving DecidableEq

inductive JArr where
  | nil  : JArr
  | cons : Json → JArr → JArr
  deriving DecidableEq

inductive JObj where
  | nil  : JObj
  | cons : String → Json → JObj → JObj
  deriving DecidableEq

end

/-- Lookup `o.get k`: first value bound to key `k`, as Python `dict` lookup. -/
def JObj.lookup (o : JObj) (k : String) : Option Json :=
  match o with
  | .nil => none
  | .cons k' v rest => if k' = k then some v else rest.lookup k

/-- Python `k in d` on an object. -/
def JObj.hasKey (o : JObj) (k : String) : Bool :=
  (o.lookup k).isSome

/-- Total lookup with default. Agrees with Python `d.get(k, default)`
whenever the receiver is a dict; on a non-dict receiver Python instead
raises `AttributeError`, so sites where the code can reach a non-dict
receiver model that raise explicitly (`callToolExtract`,
`syncSendMessage`), and this helper is applied only where the receiver is
a JSON object. -/
def Json.getD (j : Json) (k : String) (d : Json) : Json :=
  match j with
  | .obj o => (o.lookup k).getD d
  | _ => d

/-- Python type name of a parsed-JSON value, as it appears in
`AttributeError` messages. -/
def Json.pyTypeName : Json → String
  | .str _ => "str"
  | .num _ => "int"
  | .bool _ => "bool"
  | .null => "NoneType"
  | .arr _ => "list"
  | .obj _ => "dict"

/-! ## Tool Schema Adapter: `_clean_schema_for_gemini`

From `mcp-client/clients/gemini/client_gemini_local.py` lines 82–113 (the
same function is duplicated verbatim in the http and sse client variants):

* a non-dict input is returned unchanged;
* keys in the `unsupported_fields` denylist are dropped;
* the value under `properties`, when a dict, is rebuilt with every property
  schema cleaned (the property *names* are kept as they are);
* the value under `items`, when a dict, is cleaned;
* every other dict value is cleaned; non-dict values pass through. -/

/-- The `unsupported_fields` denylist of `_clean_schema_for_gemini`. -/
def unsupportedFields : List String :=
  ["title", "examples", "default", "$schema", "$id",
   "additionalProperties", "patternProperties", "dependencies",
   "allOf", "anyOf", "oneOf", "not"]

mutual

/-- Function `_clean_schema_for_gemini` on a JSON value. -/
def cleanSchema : Json → Json
  | .obj o => .obj (cleanObj o)
  | j => j

/-- The `for key, value in schema.items()` loop of `_clean_schema_for_gemini`. -/
def cleanObj : JObj → JObj
  | .nil => .nil
  | .cons k v rest =>
    if unsupportedFields.contains k then cleanObj rest
    else
      match v with
      | .obj inner =>
        if k = "properties" then
          .cons k (.obj (cleanProps inner)) (cleanObj rest)
        else
          -- the `items` branch and the generic nested-dict branch act identically
          .cons k (.obj (cleanObj inner)) (cleanObj rest)
      | _ => .cons k v (cleanObj rest)

/-- The dict comprehension cleaning each `prop_schema` under `properties`;
property names are not filtered. -/
def cleanProps : JObj → JObj
  | .nil => .nil
  | .cons k v rest => .cons k (cleanSchema v) (cleanProps rest)

end

/-! Key-occurrence predicates used to state C3. -/

mutual

/-- Some denylisted key occurs somewhere in the tree, looking inside
arrays as well as objects (`at any nesting depth of the returned tree`). -/
def badKeyAnywhere : Json → Bool
  | .obj o => badKeyAnywhereObj o
  | .arr a => badKeyAnywhereArr a
  | _ => false

def badKeyAnywhereArr : JArr → Bool
  | .nil => false
  | .cons j rest => badKeyAnywhere j || badKeyAnywhereArr rest

def badKeyAnywhereObj : JObj → Bool
  | .nil => false
  | .cons k v rest =>
    unsupportedFields.contains k || badKeyAnywhere v || badKeyAnywhereObj rest

end

mutual

/-- Some denylisted key occurs on the object spine: reachable through object
values only (arrays are opaque), and not counting property *names* directly
under a `properties` key. This is the invariant `cleanSchema` actually
establishes. -/
def badKeySpine : Json → Bool
  | .obj o => badKeySpineObj o
  | _ => false

def badKeySpineObj : JObj → Bool
  | .nil => false
  | .cons k v rest =>
    unsupportedFields.contains k
      || (if k = "properties" then
            match v with
            | .obj props => badKeySpinePropsObj props
            | .arr _ | .str _ | .num _ | .bool _ | .null => false
          else badKeySpine v)
      || badKeySpineObj rest

/-- Under `properties`, the property names themselves are exempt; only the
property schemas are checked. -/
def badKeySpinePropsObj : JObj → Bool
  | .nil => false
  | .cons _ v rest => badKeySpine v || badKeySpinePropsObj rest

end

/-! ## Lemmas: the cleaner is idempotent and scrubs the object spine -/

mutual

theorem cleanSchema_idem (j : Json) :
    cleanSchema (cleanSchema j) = cleanSchema j := by
  cases j with
  | obj o => simp [cleanSchema, cleanObj_idem o]
  | str s => rfl
  | num n => rfl
  | bool b => rfl
  | null => rfl
  | arr a => rfl

theorem cleanObj_idem (o : JObj) :
    cleanObj (cleanObj o) = cleanObj o := by
  cases o with
  | nil => rfl
  | cons k v rest =>
    by_cases hk : k ∈ unsupportedFields
    · cases v <;> simp [cleanObj, hk, cleanObj_idem rest]
    · cases v with
      | obj inner =>
        by_cases hp : k = "properties"
        · simp [cleanObj, hk, hp, cleanProps_idem inner, cleanObj_idem rest]
        · simp [cleanObj, hk, hp, cleanObj_idem inner, cleanObj_idem rest]
      | str s => simp [cleanObj, hk, cleanObj_idem rest]
      | num n => simp [cleanObj, hk, cleanObj_idem rest]
      | bool b => simp [cleanObj, hk, cleanObj_idem rest]
      | null => simp [cleanObj, hk, cleanObj_idem rest]
      | arr a => simp [cleanObj, hk, cleanObj_idem rest]

theorem cleanProps_idem (o : JObj) :
    cleanProps (cleanProps o) = cleanProps o := by
  cases o with
  | nil => rfl
  | cons k v rest => simp [cleanProps, cleanSchema_idem v, cleanProps_idem rest]

end

mutual

theorem badKeySpine_clean (j : Json) :
    badKeySpine (cleanSchema j) = false := by
  cases j with
  | obj o => simp [cleanSchema, badKeySpine, badKeySpineObj_clean o]
  | str s => simp [cleanSchema, badKeySpine]
  | num n => simp [cleanSchema, badKeySpine]
  | bool b => simp [cleanSchema, badKeySpine]
  | null => simp [cleanSchema, badKeySpine]
  | arr a => simp [cleanSchema, badKeySpine]

theorem badKeySpineObj_clean (o : JObj) :
    badKeySpineObj (cleanObj o) = false := by
  cases o with
  | nil => simp [cleanObj, badKeySpineObj]
  | cons k v rest =>
    by_cases hk : k ∈ unsupportedFields
    · cases v <;> simp [cleanObj, hk, badKeySpineObj_clean rest]
    · cases v with
      | obj inner =>
        by_cases hp : k = "properties"
        · simp [cleanObj, hk, hp, badKeySpineObj,
                badKeySpinePropsObj_clean inner, badKeySpineObj_clean rest]
          decide
        · simp [cleanObj, hk, hp, badKeySpineObj, badKeySpine,
                badKeySpineObj_clean inner, badKeySpineObj_clean rest]
      | str s =>
        by_cases hp : k = "properties" <;>
          simp [cleanObj, hk, hp, badKeySpineObj, badKeySpine,
                badKeySpineObj_clean rest] <;> subst hp <;> decide
      | num n =>
        by_cases hp : k = "properties" <;>
          simp [cleanObj, hk, hp, badKeySpineObj, badKeySpine,
                badKeySpineObj_clean rest] <;> subst hp <;> decide
      | bool b =>
        by_cases hp : k = "properties" <;>
          simp [cleanObj, hk, hp, badKeySpineObj, badKeySpine,
                badKeySpineObj_clean rest] <;> subst hp <;> decide
      | null =>
        by_cases hp : k = "properties" <;>
          simp [cleanObj, hk, hp, badKeySpineObj, badKeySpine,
                badKeySpineObj_clean rest] <;> subst hp <;> decide
      | arr a =>
        by_cases hp : k = "properties" <;>
          simp [cleanObj, hk, hp, badKeySpineObj, badKeySpine,
                badKeySpineObj_clean rest] <;> subst hp <;> decide

theorem badKeySpinePropsObj_clean (o : JObj) :
    badKeySpinePropsObj (cleanProps o) = false := by
  cases o with
  | nil => simp [cleanProps, badKeySpinePropsObj]
  | cons k v rest =>
    simp [cleanProps, badKeySpinePropsObj, badKeySpine_clean v,
          badKeySpinePropsObj_clean rest]

end

/-! ## Claim C3 and C9 -/

/-- A schema whose key `enum_docs` holds an *array* containing an object with
the denylisted key `title`; `_clean_schema_for_gemini` never recurses into
list values, so `title` survives. -/
def schemaWithArrayNestedTitle : Json :=
  .obj (.cons "enum_docs"
    (.arr (.cons (.obj (.cons "title" (.str "x") .nil)) .nil)) .nil)

/-- A schema declaring a parameter *named* `title`; the dict comprehension
for `properties` cleans each property schema but keeps every property name,
so the key `title` survives one level below `properties`. -/
def schemaWithTitleProperty : Json :=
  .obj (.cons "properties"
    (.obj (.cons "title" (.obj (.cons "type" (.str "string") .nil)) .nil)) .nil)

/-- C3 counterexample: the claim `no key from the denylist appears anywhere
in clean(S), at any nesting depth` is false: a denylisted key survives both
inside an array value and as a property name under `properties`. -/
theorem clean_leaves_denylisted_key_in_output :
    badKeyAnywhere (cleanSchema schemaWithArrayNestedTitle) = true
    ∧ badKeyAnywhere (cleanSchema schemaWithTitleProperty) = true := by
  constructor <;> rfl

/-- C3 (amended): after cleaning, no denylisted key occurs as a key of the
returned object, nor of any object reachable through object values — except
that property names directly under a `properties` key are kept verbatim and
values that are arrays pass through uncleaned. -/
theorem clean_removes_denylisted_keys_on_object_spine (j : Json) :
    badKeySpine (cleanSchema j) = false :=
  badKeySpine_clean j

/-- C9: the schema cleaner is idempotent: `clean(clean(S)) = clean(S)` for
every JSON-schema-like input. -/
theorem clean_schema_idempotent (j : Json) :
    cleanSchema (cleanSchema j) = cleanSchema j :=
  cleanSchema_idem j

/-! ## Tool Call Dispatcher: `_call_tool` of the HTTP client

From `mcp-client/clients/gemini/client_gemini_http_remote.py` lines 113–142:
raise when the parsed response has an `error` key; otherwise take
`result.get("result", {})` and its `content`; a non-empty list whose first
item is a dict with a `text` key yields that value; every other error-free
shape yields `str(tool_result)`. -/

mutual

/-- Python `str()` of a JSON value parsed by `response.json()` (dict repr
with single-quoted strings, `True`/`False`/`None`). -/
def pyRepr : Json → String
  | .str s => "\x27" ++ s ++ "\x27"
  | .num n => toString n
  | .bool b => if b then "True" else "False"
  | .null => "None"
  | .arr a => "[" ++ pyReprArr a ++ "]"
  | .obj o => "\x7b" ++ pyReprObj o ++ "\x7d"

def pyReprArr : JArr → String
  | .nil => ""
  | .cons j .nil => pyRepr j
  | .cons j rest => pyRepr j ++ ", " ++ pyReprArr rest

def pyReprObj : JObj → String
  | .nil => ""
  | .cons k v .nil => "\x27" ++ k ++ "\x27: " ++ pyRepr v
  | .cons k v rest => "\x27" ++ k ++ "\x27: " ++ pyRepr v ++ ", " ++ pyReprObj rest

end

/-- Result of `_call_tool` on the parsed response dict: the deliberate
`Exception(f"Tool call failed: ...")` raise carrying the error payload, the
`AttributeError` raised by `tool_result.get("content", [])` when the
error-free `result` value is not a dict (line 134), or the returned value. -/
inductive ToolCallOutcome where
  | failed (payload : Json)
  | attrError (msg : String)
  | returned (v : Json)
  deriving DecidableEq

/-- Handling by `_call_tool` of the dict parsed from the HTTP body (lines
127–142). When the `result` value is not a dict, the call
`tool_result.get("content", [])` raises `AttributeError`. -/
def callToolExtract (response : JObj) : ToolCallOutcome :=
  if response.hasKey "error" then
    .failed ((response.lookup "error").getD .null)
  else
    match (response.lookup "result").getD (.obj .nil) with
    | .obj tro =>
      match (tro.lookup "content").getD (.arr .nil) with
      | .arr (.cons first _) =>
        match first with
        | .obj o =>
          match o.lookup "text" with
          | some v => .returned v
          | none => .returned (.str (pyRepr (.obj tro)))
        | _ => .returned (.str (pyRepr (.obj tro)))
      | _ => .returned (.str (pyRepr (.obj tro)))
    | tr => .attrError ("\x27" ++ tr.pyTypeName ++ "\x27 object has no attribute \x27get\x27")

/-- The extraction policy exactly as claim C4 words it: error key → fail;
non-empty content → first item's `text` if present, *else that item's own
string representation*; otherwise the string representation of the whole
result object — never raising and always producing some value. -/
def dispatchPolicyClaimed (response : JObj) : ToolCallOutcome :=
  if response.hasKey "error" then
    .failed ((response.lookup "error").getD .null)
  else
    let tool_result := (response.lookup "result").getD (.obj .nil)
    match tool_result with
    | .obj tro =>
      match (tro.lookup "content").getD (.arr .nil) with
      | .arr (.cons first _) =>
        match first with
        | .obj o =>
          match o.lookup "text" with
          | some v => .returned v
          | none => .returned (.str (pyRepr first))
        | _ => .returned (.str (pyRepr first))
      | _ => .returned (.str (pyRepr tool_result))
    | _ => .returned (.str (pyRepr tool_result))

/-- The first content item's `text`, when the first item is an object that has
one. Helper for the amended policy statement. -/
def firstContentText (tro : JObj) : Option Json :=
  match (tro.lookup "content").getD (.arr .nil) with
  | .arr (.cons (.obj o) _) => o.lookup "text"
  | _ => none

/-- The extraction policy the code actually implements, written from the
amended claim's words: fail with the payload iff an `error` key is present;
otherwise, when the result value is a dict, return the first content item's
`text` when the first item is an object carrying one and in every other
shape the string representation of the whole result object; when the
error-free result value is not a dict, raise `AttributeError`. -/
def dispatchPolicyAmended (response : JObj) : ToolCallOutcome :=
  if response.hasKey "error" then
    .failed ((response.lookup "error").getD .null)
  else
    match (response.lookup "result").getD (.obj .nil) with
    | .obj tro =>
      match firstContentText tro with
      | some v => .returned v
      | none => .returned (.str (pyRepr (.obj tro)))
    | tr => .attrError ("\x27" ++ tr.pyTypeName ++ "\x27 object has no attribute \x27get\x27")

/-- A response whose first content item is a dict *without* a `text` key. -/
def responseImageOnly : JObj :=
  .cons "result"
    (.obj (.cons "content"
      (.arr (.cons (.obj (.cons "type" (.str "image") .nil)) .nil)) .nil)) .nil

/-- A response whose first content item carries an empty `text`. -/
def responseEmptyText : JObj :=
  .cons "result"
    (.obj (.cons "content"
      (.arr (.cons (.obj (.cons "text" (.str "") .nil)) .nil)) .nil)) .nil

/-- An error-free response whose `result` value is a plain string, a shape
JSON-RPC permits. -/
def responseStringResult : JObj :=
  .cons "result" (.str "hello") .nil

/-- C4 counterexample: on a non-empty content list whose first item lacks a
`text` field the code returns the string representation of the *whole*
result object, not of that item as the claim states; on an empty `text` it
returns the empty string, so an error-free dispatch can return an empty
value; and on an error-free response whose `result` value is a non-dict it
raises `AttributeError` at `tool_result.get("content", [])` instead of
returning a string. -/
theorem dispatch_policy_claim_false :
    callToolExtract responseImageOnly ≠ dispatchPolicyClaimed responseImageOnly
    ∧ callToolExtract responseEmptyText = .returned (.str "")
    ∧ callToolExtract responseStringResult
        = .attrError "\x27str\x27 object has no attribute \x27get\x27"
    ∧ dispatchPolicyClaimed responseStringResult
        = .returned (.str "\x27hello\x27") := by
  refine ⟨by decide, rfl, rfl, rfl⟩

/-- C4 (amended): dispatch fails with the error payload iff the response has
an `error` key; otherwise, when the result value is a dict, it returns the
first content item's `text` exactly when content is a non-empty list whose
first item is an object carrying one, and in every other such shape the
string representation of the whole result object (never of the first item);
when the error-free result value is not a dict, dispatch raises
`AttributeError` rather than returning a value. -/
theorem dispatch_code_matches_amended_policy (response : JObj) :
    callToolExtract response = dispatchPolicyAmended response := by
  by_cases h : response.hasKey "error" = true
  · simp [callToolExtract, dispatchPolicyAmended, h]
  · rw [Bool.not_eq_true] at h
    cases htr : (response.lookup "result").getD (.obj .nil) with
    | obj tro =>
      cases hc : (tro.lookup "content").getD (.arr .nil) with
      | arr a =>
        cases a with
        | nil =>
          simp [callToolExtract, dispatchPolicyAmended, firstContentText, h, htr, hc]
        | cons first rest =>
          cases first with
          | obj o =>
            cases hl : o.lookup "text" with
            | some v =>
              simp [callToolExtract, dispatchPolicyAmended, firstContentText, h, htr, hc, hl]
            | none =>
              simp [callToolExtract, dispatchPolicyAmended, firstContentText, h, htr, hc, hl]
          | str s =>
            simp [callToolExtract, dispatchPolicyAmended, firstContentText, h, htr, hc]
          | num n =>
            simp [callToolExtract, dispatchPolicyAmended, firstContentText, h, htr, hc]
          | bool b =>
            simp [callToolExtract, dispatchPolicyAmended, firstContentText, h, htr, hc]
          | null =>
            simp [callToolExtract, dispatchPolicyAmended, firstContentText, h, htr, hc]
          | arr a2 =>
            simp [callToolExtract, dispatchPolicyAmended, firstContentText, h, htr, hc]
      | obj o2 =>
        simp [callToolExtract, dispatchPolicyAmended, firstContentText, h, htr, hc]
      | str s =>
        simp [callToolExtract, dispatchPolicyAmended, firstContentText, h, htr, hc]
      | num n =>
        simp [callToolExtract, dispatchPolicyAmended, firstContentText, h, htr, hc]
      | bool b =>
        simp [callToolExtract, dispatchPolicyAmended, firstContentText, h, htr, hc]
      | null =>
        simp [callToolExtract, dispatchPolicyAmended, firstContentText, h, htr, hc]
    | str s => simp [callToolExtract, dispatchPolicyAmended, h, htr]
    | num n => simp [callToolExtract, dispatchPolicyAmended, h, htr]
    | bool b => simp [callToolExtract, dispatchPolicyAmended, h, htr]
    | null => simp [callToolExtract, dispatchPolicyAmended, h, htr]
    | arr a => simp [callToolExtract, dispatchPolicyAmended, h, htr]

/-! ## Result extraction in the stdio and SSE client variants

`_extract_content_from_mcp_result` (client_gemini_local.py lines 115–141 and
client_gemini_sse_remote.py lines 137–163, identical): when `result.content`
is a list, every item contributes its `text` attribute when it has one, else
`str(item)`, and the parts are joined with newlines. -/

/-- One MCP content item as the extraction code observes it: an optional
`text` attribute and its `str()` representation. -/
structure ContentItem where
  text : Option String
  rep : String
  deriving DecidableEq

/-- The per-item extraction of the `for item in content` loop:
`item.text` when the attribute exists, else `str(item)`. -/
def itemText (it : ContentItem) : String :=
  match it.text with
  | some t => t
  | none => it.rep

/-- Python `"\n".join`. -/
def joinNL : List String → String
  | [] => ""
  | [s] => s
  | s :: rest => s ++ "\n" ++ joinNL rest

/-- The list branch of `_extract_content_from_mcp_result`. -/
def extractContentList (items : List ContentItem) : String :=
  joinNL (items.map itemText)

/-- The HTTP variant's first-item-only policy (`_call_tool`, lines 136–142)
projected onto the same content items: the first item's `text` when present,
else `str(tool_result)`. -/
def httpFirstItemExtract (items : List ContentItem) (toolResultRep : String) : String :=
  match items with
  | it :: _ =>
    match it.text with
    | some t => t
    | none => toolResultRep
  | [] => toolResultRep

/-- C10: on a list of content items the stdio/SSE extraction helper joins
*every* item's text (with `str(item)` fallback) with newlines, in order; for
a multi-item result this differs from the HTTP variant's first-item-only
extraction. -/
theorem stdio_sse_extract_joins_all_items (i1 i2 : ContentItem)
    (rest : List ContentItem) (t : String) (h : i1.text = some t)
    (toolRep : String) :
    extractContentList (i1 :: i2 :: rest) = t ++ "\n" ++ extractContentList (i2 :: rest)
    ∧ httpFirstItemExtract (i1 :: i2 :: rest) toolRep = t
    ∧ extractContentList (i1 :: i2 :: rest) ≠ httpFirstItemExtract (i1 :: i2 :: rest) toolRep := by
  refine ⟨?_, ?_, ?_⟩
  · simp [extractContentList, joinNL, itemText, h]
  · simp [httpFirstItemExtract, h]
  · simp only [extractContentList, httpFirstItemExtract, h, List.map_cons, joinNL, itemText]
    intro heq
    have hlen := congrArg String.length heq
    have hn : ("\n" : String).length = 1 := rfl
    simp only [String.length_append, hn] at hlen
    omega

/-- Concrete two-item content list for the C10 witness. -/
def sampleItemX : ContentItem := ⟨some "X", "TextContent(text=\x27X\x27)"⟩

/-- Second concrete content item for the C10 witness. -/
def sampleItemY : ContentItem := ⟨some "Y", "TextContent(text=\x27Y\x27)"⟩

/-- C10 witness at a concrete two-item result. -/
theorem stdio_sse_extract_joins_all_items_witness :
    extractContentList [sampleItemX, sampleItemY]
      = "X" ++ "\n" ++ extractContentList [sampleItemY]
    ∧ httpFirstItemExtract [sampleItemX, sampleItemY] "R" = "X"
    ∧ extractContentList [sampleItemX, sampleItemY]
      ≠ httpFirstItemExtract [sampleItemX, sampleItemY] "R" :=
  stdio_sse_extract_joins_all_items sampleItemX sampleItemY [] "X" rfl "R"

/-! ## MCP Transport Bridge: subprocess line-protocol bindings

`SimpleMCPServerWrapper.send_message` (mcp_http_server_sync_remote.py lines
64–100): write + flush, `select` with a 10 s timeout, `readline`; a timeout
or an empty read raises a `RuntimeError` *inside the method's own
`try`/`except`, which catches every exception and returns a JSON-RPC error
object instead of raising*.

`MCPServerWrapper.send_message` of the async variant
(mcp_http_server_async_remote.py lines 58–106): the communication thread
puts `{"error": "Server closed connection"}` on the response queue when the
stream closes, while the waiting side raises `TimeoutError` after 10 s. -/

/-- What the single bounded read of a send attempt observes. -/
inductive ReadOutcome where
  | line (resp : Json)
  | timedOut
  | closed
  deriving DecidableEq

/-- A raised Python exception, by class. -/
inductive PyFault where
  | timeoutErr (msg : String)
  | runtimeErr (msg : String)
  | attributeErr (msg : String)
  deriving DecidableEq

/-- Python `str(e)` of a modelled exception. -/
def PyFault.message : PyFault → String
  | .timeoutErr m => m
  | .runtimeErr m => m
  | .attributeErr m => m

/-- The body of the sync wrapper's `try` block: the response line, or the
`RuntimeError` raised on timeout / closed stream. -/
def syncSendAttempt (r : ReadOutcome) : Except PyFault Json :=
  match r with
  | .line resp => .ok resp
  | .timedOut => .error (.runtimeErr "MCP server response timeout")
  | .closed => .error (.runtimeErr "Server closed connection")

/-- The JSON-RPC error object built in the sync wrapper's `except` block:
`{"jsonrpc": "2.0", "error": {"code": -32603, "message": str(e)}, "id": message.get("id")}`. -/
def jsonRpcErrorObj (msg : String) (idv : Json) : Json :=
  .obj (.cons "jsonrpc" (.str "2.0")
    (.cons "error"
      (.obj (.cons "code" (.num (-32603)) (.cons "message" (.str msg) .nil)))
    (.cons "id" idv .nil)))

/-- Method `SimpleMCPServerWrapper.send_message`: every failure of the
attempt is caught and converted into a *returned* error object carrying
`message.get("id")`. When `message` is not a dict, that `.get` call inside
the `except` block itself raises `AttributeError`, which propagates out of
`send_message`; JSON-RPC messages are objects, so the failure claims range
over object messages. -/
def syncSendMessage (message : Json) (r : ReadOutcome) : Except PyFault Json :=
  match syncSendAttempt r with
  | .ok v => .ok v
  | .error e =>
    match message with
    | .obj o => .ok (jsonRpcErrorObj e.message ((o.lookup "id").getD .null))
    | m => .error (.attributeErr
        ("\x27" ++ m.pyTypeName ++ "\x27 object has no attribute \x27get\x27"))

/-- The async wrapper's `send_message`: a timeout raises `TimeoutError`,
while a closed stream surfaces as a returned `{"error": ...}` value put on
the queue by the communication thread. -/
def asyncSendMessage (r : ReadOutcome) : Except PyFault Json :=
  match r with
  | .line resp => .ok resp
  | .closed => .ok (.obj (.cons "error" (.str "Server closed connection") .nil))
  | .timedOut => .error (.timeoutErr "No response from MCP server")

/-- A concrete `tools/call` request carrying `id` 9. -/
def sampleCallMsg : Json :=
  .obj (.cons "jsonrpc" (.str "2.0")
    (.cons "method" (.str "tools/call")
    (.cons "params" (.obj .nil)
    (.cons "id" (.num 9) .nil))))

/-- C5 counterexample: in the sync binding neither failure raises — both the
timeout and the closed stream produce a *returned* JSON-RPC error object —
and in the async binding a closed stream also returns a value. -/
theorem send_failures_are_returned_not_raised :
    syncSendMessage sampleCallMsg .timedOut
      = .ok (jsonRpcErrorObj "MCP server response timeout" (.num 9))
    ∧ syncSendMessage sampleCallMsg .closed
      = .ok (jsonRpcErrorObj "Server closed connection" (.num 9))
    ∧ asyncSendMessage .closed
      = .ok (.obj (.cons "error" (.str "Server closed connection") .nil)) := by
  refine ⟨rfl, rfl, rfl⟩

/-- C5 (amended): for every JSON-RPC (object) message, the sync wrapper
catches its own timeout/closed-stream `RuntimeError`s and returns a JSON-RPC
error object echoing the message id — its `send_message` never raises on an
object message; the async wrapper raises a `TimeoutError`-class fault on
timeout but returns an `{"error": ...}` value when the stream closes. -/
theorem send_failure_behavior (o : JObj) :
    (∀ r, ∃ v, syncSendMessage (.obj o) r = .ok v)
    ∧ syncSendMessage (.obj o) .timedOut
        = .ok (jsonRpcErrorObj "MCP server response timeout" ((o.lookup "id").getD .null))
    ∧ syncSendMessage (.obj o) .closed
        = .ok (jsonRpcErrorObj "Server closed connection" ((o.lookup "id").getD .null))
    ∧ asyncSendMessage .timedOut = .error (.timeoutErr "No response from MCP server")
    ∧ asyncSendMessage .closed
        = .ok (.obj (.cons "error" (.str "Server closed connection") .nil)) := by
  refine ⟨?_, rfl, rfl, rfl, rfl⟩
  intro r
  cases r with
  | line resp => exact ⟨resp, rfl⟩
  | timedOut => exact ⟨_, rfl⟩
  | closed => exact ⟨_, rfl⟩

/-! ## Request construction and the two HTTP POST /call surfaces

`MCPServerWrapper.call_tool` (nasa_http_server_sync.py lines 113–123)
increments its own `request_id` and builds a fresh envelope from the
caller's `method`/`params`, discarding the caller's `id`;
`NASAHTTPRequestHandler.do_POST` (lines 163–185) forwards through it.
`SimpleMCPHTTPHandler.do_POST` (mcp_http_server_sync_remote.py lines
135–171) instead passes the caller's envelope to `send_message` verbatim. -/

/-- A JSON-RPC envelope `{jsonrpc, method, params[, id]}`; notifications
carry no `id` key. -/
def mkRequest (method : Json) (params : Json) (idv : Option Json) : Json :=
  match idv with
  | some i =>
    .obj (.cons "jsonrpc" (.str "2.0")
      (.cons "method" method (.cons "params" params (.cons "id" i .nil))))
  | none =>
    .obj (.cons "jsonrpc" (.str "2.0")
      (.cons "method" method (.cons "params" params .nil)))

/-- Method `MCPServerWrapper.call_tool`: a fresh wrapper-owned id, the submitted id
playing no part. Returns the message sent and the new counter. -/
def nasaCallTool (requestId : Nat) (method params : Json) : Json × Nat :=
  (mkRequest method params (some (.num (requestId + 1))), requestId + 1)

/-- Handler `NASAHTTPRequestHandler.do_POST`: extract `method`/`params` from the
posted body, forward via `call_tool`, return the subprocess's response
(`server` models the subprocess's response function). -/
def nasaDoPOST (server : Json → Json) (requestId : Nat) (request_data : Json) :
    Json × Nat :=
  let sent := nasaCallTool requestId
    (request_data.getD "method" (.str "")) (request_data.getD "params" (.obj .nil))
  (server sent.1, sent.2)

/-- Handler `SimpleMCPHTTPHandler.do_POST`: the posted envelope itself goes through
`send_message`. -/
def simpleDoPOST (request_data : Json) (r : ReadOutcome) : Except PyFault Json :=
  syncSendMessage request_data r

/-- Modelled from the spec: the subprocess is a JSON-RPC 2.0 server, so its
response to a request echoes that request's `id` (`responses must echo the
same id`). The repository's `nasa_server.py` delegates this framing to the
external `mcp` library, which is not part of the source. -/
def echoServer (m : Json) : Json :=
  .obj (.cons "jsonrpc" (.str "2.0")
    (.cons "result" (.obj .nil)
    (.cons "id" (m.getD "id" .null) .nil)))

/-- A caller-submitted `tools/list` request carrying `id` 5. -/
def postedRequestId5 : Json :=
  .obj (.cons "jsonrpc" (.str "2.0")
    (.cons "method" (.str "tools/list")
    (.cons "params" (.obj .nil)
    (.cons "id" (.num 5) .nil))))

/-- C6 counterexample: through the NASA wrapper's POST /call surface a
request submitted with `id` 5 (wrapper counter at 1 after its own
initialize) is answered with `id` 2 — the wrapper's own counter — not the
caller's `id`. -/
theorem post_response_id_not_echoed :
    (nasaDoPOST echoServer 1 postedRequestId5).1.getD "id" .null = .num 2
    ∧ postedRequestId5.getD "id" .null = .num 5
    ∧ (Json.num 2) ≠ (Json.num 5) := by
  refine ⟨rfl, rfl, by decide⟩

/-- C6 (amended): against a subprocess that echoes request ids, the simple
sync wrapper's POST /call surface forwards the caller's envelope verbatim
and so echoes the caller's `id`; the NASA wrapper's POST /call surface
rewrites the envelope with its own counter, so the response's `id` is the
wrapper counter's successor regardless of the id the caller submitted. -/
theorem post_response_id_behavior (server : Json → Json)
    (hecho : ∀ m, (server m).getD "id" .null = m.getD "id" .null)
    (requestId : Nat) (request_data : Json) :
    (nasaDoPOST server requestId request_data).1.getD "id" .null
      = .num (requestId + 1)
    ∧ simpleDoPOST request_data (.line (server request_data))
      = .ok (server request_data) := by
  constructor
  · rw [nasaDoPOST]
    simp only [nasaCallTool, hecho]
    simp [mkRequest, Json.getD, JObj.lookup]
  · rfl

/-- C6 witness: the amended behavior at the concrete echoing subprocess and
the concrete posted request with `id` 5. -/
theorem post_response_id_behavior_witness :
    (nasaDoPOST echoServer 1 postedRequestId5).1.getD "id" .null = .num 2
    ∧ simpleDoPOST postedRequestId5 (.line (echoServer postedRequestId5))
      = .ok (echoServer postedRequestId5) :=
  post_response_id_behavior echoServer
    (fun m => by simp [echoServer, Json.getD, JObj.lookup]) 1 postedRequestId5

/-! ## Initialization sequences (C7) and read behavior (C8) -/

/-- The `initialize` params built by the wrappers and the HTTP client
(protocolVersion / capabilities / clientInfo). -/
def initParams (clientName : String) : Json :=
  .obj (.cons "protocolVersion" (.str "2024-11-05")
    (.cons "capabilities" (.obj .nil)
    (.cons "clientInfo"
      (.obj (.cons "name" (.str clientName)
        (.cons "version" (.str "1.0.0") .nil))) .nil)))

/-- The messages `SimpleMCPServerWrapper.start_server` sends before serving
(mcp_http_server_sync_remote.py lines 44–62): the `initialize` request with
`id` 1 and nothing else — no `notifications/initialized`. -/
def simpleStartServerSends : List Json :=
  [mkRequest (.str "initialize") (initParams "http-wrapper") (some (.num 1))]

/-- The messages `MCPServerWrapper._send_initialize` sends
(nasa_http_server_sync.py lines 50–77): `initialize` with the wrapper's
first id, then the `notifications/initialized` notification (no id). -/
def nasaSendInitializeSends : List Json :=
  [mkRequest (.str "initialize") (initParams "nasa-http-wrapper") (some (.num 1)),
   mkRequest (.str "notifications/initialized") (.obj .nil) none]

/-- The messages `MCPGeminiHTTPClient._send_initialize` POSTs
(client_gemini_http_remote.py lines 60–93): `initialize` with id 1, then
the `notifications/initialized` notification (no id). -/
def geminiHttpInitializeSends : List Json :=
  [mkRequest (.str "initialize") (initParams "gemini-remote-client") (some (.num 1)),
   mkRequest (.str "notifications/initialized") (.obj .nil) none]

/-- The `method` field of a sent message. -/
def methodOf (m : Json) : Json := m.getD "method" (.str "")

/-- C7 counterexample: the sync wrapper binding's initialize operation sends
only the `initialize` request; no `notifications/initialized` notification
is ever sent on that binding. -/
theorem simple_wrapper_skips_initialized_notification :
    simpleStartServerSends.map methodOf = [.str "initialize"]
    ∧ (Json.str "notifications/initialized") ∉ simpleStartServerSends.map methodOf := by
  refine ⟨rfl, by decide⟩

/-- C7 (amended): the NASA wrapper binding and the HTTP client binding send
`initialize` followed by `notifications/initialized`, in that order; the
simple sync wrapper binding sends only `initialize`. -/
theorem initialize_sequences :
    nasaSendInitializeSends.map methodOf
      = [.str "initialize", .str "notifications/initialized"]
    ∧ geminiHttpInitializeSends.map methodOf
      = [.str "initialize", .str "notifications/initialized"]
    ∧ simpleStartServerSends.map methodOf = [.str "initialize"] := by
  refine ⟨rfl, rfl, rfl⟩

/-! C8: whether a send consumes a response line. -/

/-- One step on the subprocess's streams. -/
inductive WireAction where
  | writeLine (m : Json)
  | readLine
  deriving DecidableEq

/-- Method `SimpleMCPServerWrapper.send_message` always writes the message and then
selects/reads one response line, whatever the message is (lines 72–89). -/
def simpleSendTrace (message : Json) : List WireAction :=
  [.writeLine message, .readLine]

/-- Method `MCPServerWrapper._send_message` (nasa_http_server_sync.py lines
79–103): reads a line unless the caller passed `expect_response=False`. -/
def nasaSendTrace (message : Json) (expectResponse : Bool) : List WireAction :=
  .writeLine message :: (if expectResponse then [.readLine] else [])

/-- Method `MCPServerWrapper.call_tool` forwards with the default
`expect_response=True` (lines 113–123), so every POST /call message —
notification or not — is sent expecting a response line. -/
def nasaCallToolTrace (requestId : Nat) (method params : Json) : List WireAction :=
  nasaSendTrace (nasaCallTool requestId method params).1 true

/-- The `notifications/initialized` notification: no `id` key. -/
def initializedNotification : Json :=
  mkRequest (.str "notifications/initialized") (.obj .nil) none

/-- C8 counterexample: the sync wrapper's bridge does block awaiting a
response line for an id-less notification — sending
`notifications/initialized` through `send_message` performs a read. -/
theorem notification_send_still_reads :
    initializedNotification.getD "id" .null = .null
    ∧ WireAction.readLine ∈ simpleSendTrace initializedNotification := by
  refine ⟨rfl, by decide⟩

/-- C8 (amended): neither bridge keys its read on the absence of an `id`:
the simple wrapper reads a response line for every message, and the NASA
wrapper reads for every message forwarded through `call_tool` (the POST
/call path); the read is skipped only when the internal caller explicitly
passes `expect_response=False`, which happens solely for the wrapper's own
`initialized` notification. -/
theorem send_read_behavior (message params : Json) (requestId : Nat) :
    WireAction.readLine ∈ simpleSendTrace message
    ∧ WireAction.readLine ∈ nasaCallToolTrace requestId (.str "notifications/initialized") params
    ∧ WireAction.readLine ∉ nasaSendTrace message false := by
  refine ⟨by simp [simpleSendTrace], by simp [nasaCallToolTrace, nasaSendTrace],
    by simp [nasaSendTrace]⟩

/-! ## LLM Tool-Use Loop: rate-limit retry (C1)

`process_query` (client_gemini_local.py lines 197–214 for the initial send,
248–263 for the continuation send; the http and sse variants are identical):

```
max_retries = 3; base_delay = 2
for attempt in range(max_retries):
    try: response = chat.send_message(...); break
    except e:
        if rate-limited:
            if attempt < max_retries - 1: sleep(base_delay * 2**attempt); continue
            else: give up with a single terminal message
        else: raise
```
-/

/-- What one `chat.send_message` attempt does. -/
inductive SendOutcome (α : Type) where
  | ok (resp : α)
  | rateLimit
  | otherError
  deriving DecidableEq

/-- How the retry loop ends. -/
inductive RetryResult (α : Type) where
  | answered (resp : α)
  | raised
  | exhausted
  deriving DecidableEq

/-- The `for attempt in range(...)` loop: `fuel` is the number of remaining
iterations. Returns (attempts made, backoff delays slept in order, result).
On a rate-limit failure with further iterations left it sleeps
`base * 2^attempt` and continues; on the last iteration it gives up without
sleeping; a non-rate-limit error propagates (`raise e`). -/
def retryAux {α : Type} (outcomes : Nat → SendOutcome α) (base attempt : Nat) :
    Nat → Nat × List Nat × RetryResult α
  | 0 => (0, [], .exhausted)
  | fuel + 1 =>
    match outcomes attempt with
    | .ok r => (1, [], .answered r)
    | .otherError => (1, [], .raised)
    | .rateLimit =>
      match fuel with
      | 0 => (1, [], .exhausted)
      | f + 1 =>
        let rest := retryAux outcomes base (attempt + 1) (f + 1)
        (rest.1 + 1, base * 2 ^ attempt :: rest.2.1, rest.2.2)

/-- The send-with-retry loop instantiated with the source's constants
`max_retries = 3`, `base_delay = 2`. -/
def sendWithRetry {α : Type} (outcomes : Nat → SendOutcome α) :
    Nat × List Nat × RetryResult α :=
  retryAux outcomes 2 0 3

/-- The terminal string `process_query` *returns* when the initial send
exhausts its retries (line 212). -/
def rateLimitTerminalMessage : String :=
  "Rate limit exceeded after 3 attempts. Please try again later or upgrade your Gemini API plan."

/-- The single message appended to `final_text` when the continuation send
exhausts its retries (line 260). -/
def continuationRateLimitMessage : String :=
  "Rate limit exceeded when processing function response."

/-- Messages produced on exhaustion: exactly one terminal message in either
position (the initial send returns its message, the continuation appends
its message), never a raised exception. -/
def exhaustionMessages (initialSend : Bool) : List String :=
  if initialSend then [rateLimitTerminalMessage] else [continuationRateLimitMessage]

/-- C1 counterexample: under three consecutive rate-limit failures the loop
sleeps only twice — 2 s then 4 s; there is no 8 s backoff delay before
giving up, contrary to the claimed 2 s/4 s/8 s schedule. -/
theorem retry_delays_are_two_and_four :
    (sendWithRetry (fun _ => (SendOutcome.rateLimit : SendOutcome Unit))).2.1 = [2, 4]
    ∧ ([2, 4] : List Nat) ≠ [2, 4, 8] := by
  refine ⟨rfl, by decide⟩

/-- C1 (amended): a send failing with rate-limit errors on every attempt is
tried exactly 3 times with backoff delays of 2 s and 4 s between consecutive
attempts (no sleep after the final failure), after which the loop gives up
without raising and exactly one terminal rate-limit message is produced —
returned for the initial send, appended for the continuation send. -/
theorem rate_limit_retry_behavior (outcomes : Nat → SendOutcome Unit)
    (h : ∀ i, outcomes i = .rateLimit) :
    sendWithRetry outcomes = (3, [2, 4], .exhausted)
    ∧ (exhaustionMessages true).length = 1
    ∧ (exhaustionMessages false).length = 1
    ∧ exhaustionMessages true = [rateLimitTerminalMessage]
    ∧ exhaustionMessages false = [continuationRateLimitMessage] := by
  refine ⟨?_, rfl, rfl, rfl, rfl⟩
  simp [sendWithRetry, retryAux, h 0, h 1, h 2]

/-- C1 witness: the amended behavior at the always-rate-limited outcome
sequence. -/
theorem rate_limit_retry_behavior_witness :
    sendWithRetry (fun _ => (SendOutcome.rateLimit : SendOutcome Unit))
      = (3, [2, 4], .exhausted)
    ∧ (exhaustionMessages true).length = 1
    ∧ (exhaustionMessages false).length = 1
    ∧ exhaustionMessages true = [rateLimitTerminalMessage]
    ∧ exhaustionMessages false = [continuationRateLimitMessage] :=
  rate_limit_retry_behavior (fun _ => SendOutcome.rateLimit) (fun _ => rfl)

/-! ## NEO date-range synthesis (C2)

`fallback_parse_query` (nasa_streamlit_app.py lines 513–606) synthesizes
`(start_date, end_date)` for `get_near_earth_objects` from whichever date
cue the query matched; `set_this_week` (nasa_gui_client.py lines 564–569)
sets `start = today`, `end = today + 7 days`. Calendar dates are modelled
as year/month/day triples with a proleptic-Gregorian ordinal matching
Python's `datetime.date` arithmetic; `timedelta(days=n)` is ordinal `+ n`. -/

/-- A calendar date. -/
structure Ymd where
  y : Nat
  m : Nat
  d : Nat
  deriving DecidableEq

/-- Gregorian leap-year rule, as `calendar.isleap` / `datetime`. -/
def isLeapYear (y : Nat) : Bool :=
  (y % 4 == 0 && y % 100 != 0) || (y % 400 == 0)

/-- Month lengths, February depending on leap year. -/
def monthLengths (leap : Bool) : List Nat :=
  [31, if leap then 29 else 28, 31, 30, 31, 30, 31, 31, 30, 31, 30, 31]

/-- Days in the months of year `y` strictly before month `m`. -/
def daysBeforeMonth (y m : Nat) : Nat :=
  ((monthLengths (isLeapYear y)).take (m - 1)).sum

/-- Days in all years strictly before year `y` (proleptic Gregorian). -/
def daysBeforeYear (y : Nat) : Nat :=
  let p := y - 1
  365 * p + p / 4 - p / 100 + p / 400

/-- Python `datetime.date.toordinal`. -/
def toOrdinal (x : Ymd) : Int :=
  (daysBeforeYear x.y : Int) + daysBeforeMonth x.y x.m + x.d

/-- Whether `date(y, m, d)` constructs without raising `ValueError`. -/
def isValidDate (x : Ymd) : Bool :=
  1 ≤ x.y && 1 ≤ x.m && x.m ≤ 12 && 1 ≤ x.d
    && x.d ≤ (monthLengths (isLeapYear x.y)).getD (x.m - 1) 0

/-- Function `set_this_week` on day ordinals: `(today, today + timedelta(days=7))`. -/
def setThisWeek (today : Int) : Int × Int := (today, today + 7)

/-- Which date cue of the NEO branch of `fallback_parse_query` the query
matched (the regex layer reduced to its outcome). -/
inductive NeoCue where
  | noDateCue
  | specificDate (y m d : Nat)
  | monthYear (m y : Nat)
  | monthOnly (m : Nat) (yr : Option Nat)
  | nextMonth
  | nextYear
  | nextWeek
  | justYear (y : Nat)
  deriving DecidableEq

/-- The `(start_date, end_date)` pair the NEO branch produces, as ordinals. -/
def fallbackNeoRange (today : Ymd) (cue : NeoCue) : Int × Int :=
  let t := toOrdinal today
  match cue with
  | .noDateCue => (t, t + 7)
  | .specificDate y m d =>
    if isValidDate ⟨y, m, d⟩ then
      (toOrdinal ⟨y, m, d⟩, toOrdinal ⟨y, m, d⟩ + 6)
    else
      (toOrdinal ⟨y, m, 1⟩, toOrdinal ⟨y, m, 7⟩)
  | .monthYear m y => (toOrdinal ⟨y, m, 1⟩, toOrdinal ⟨y, m, 7⟩)
  | .monthOnly m yr =>
    let y := match yr with
      | some y => y
      | none => if today.m ≤ m then today.y else today.y + 1
    (toOrdinal ⟨y, m, 1⟩, toOrdinal ⟨y, m, 7⟩)
  | .nextMonth =>
    let ym := if 12 < today.m + 1 then (today.y + 1, 1) else (today.y, today.m + 1)
    (toOrdinal ⟨ym.1, ym.2, 1⟩, toOrdinal ⟨ym.1, ym.2, 7⟩)
  | .nextYear =>
    (toOrdinal ⟨today.y + 1, today.m, 1⟩, toOrdinal ⟨today.y + 1, today.m, 7⟩)
  | .nextWeek => (t + 7, t + 14)
  | .justYear y =>
    if today.y ≤ y then
      (toOrdinal ⟨y, today.m, 1⟩, toOrdinal ⟨y, today.m, 7⟩)
    else (t, t + 7)

/-- Inclusive day count of a range, the counting convention of the spec's
scenario B (2029-04-13 .. 2029-04-19 is a `7-day span`). -/
def spanDaysIncl (r : Int × Int) : Int := r.2 - r.1 + 1

/-- C2 counterexample: under the spec's own span counting (13th–19th = 7
days) the default NEO branch and the GUI's `set_this_week` both produce
`end = start + 7 days`, an 8-day span — a range exceeding 7 days. -/
theorem neo_default_range_has_eight_day_span :
    spanDaysIncl (toOrdinal ⟨2029, 4, 13⟩, toOrdinal ⟨2029, 4, 19⟩) = 7
    ∧ spanDaysIncl (fallbackNeoRange ⟨2025, 10, 12⟩ .noDateCue) = 8
    ∧ spanDaysIncl (setThisWeek (toOrdinal ⟨2025, 10, 12⟩)) = 8
    ∧ (8 : Int) > 7 := by
  refine ⟨by decide, by decide, by decide, by decide⟩

/-- C2 (amended): every range the NEO cue branches synthesize satisfies
`end − start ≤ 7` days (at most an 8-day inclusive span): the default and
`next week` branches produce exactly `end = start + 7`, every other branch
at most `start + 6`; `set_this_week` likewise produces `end = start + 7`. -/
theorem neo_range_difference_at_most_seven (today : Ymd) (cue : NeoCue) (t : Int) :
    (fallbackNeoRange today cue).2 - (fallbackNeoRange today cue).1 ≤ 7
    ∧ (setThisWeek t).2 - (setThisWeek t).1 = 7 := by
  constructor
  · cases cue <;>
      simp only [fallbackNeoRange, toOrdinal] <;>
      first
        | omega
        | (split_ifs <;> simp only [toOrdinal] <;> omega)
  · simp [setThisWeek]
